import Mathlib

/-!
Verification of the valveFM playback-backend abstraction and control protocol.

This file shallowly embeds the Go sources of the repository:
* `internal/player/goaudio.go` — the in-process decode backend (`GoPlayer`);
* `internal/player/mpv.go` — the external-process backend (`Player`) and the
  executable lookup (`newExternal`, `findBundledPlayer`);
* `internal/player` composite file — `CompositeBackend` with its fallback policy;
* the `internal/ui` IPC dispatch — `Model.handleIPC`, `Model.ipcStatus`,
  `sendIPCReply` and the selection helpers they use.

Every effectful call (HTTP, audio device, process spawn, filesystem lookup,
channel send) is given an explicit environment/oracle parameter carrying the
outcome the runtime would produce; the functions below otherwise follow the Go
control flow statement by statement.  Mutex-guarded method bodies become pure
state-transition functions: holding the lock for the whole body is what makes
the Go method equivalent to one atomic transition on the state.
-/

namespace ValveFM

/-! ## In-process decode backend: `GoPlayer` (internal/player/goaudio.go) -/

/-- State of `GoPlayer`.  The `streamer`, `ctrl` and `resp` pointers are
modelled as optional handle identities (allocation ids), which is all the Go
code ever does with them apart from closing (identity comparison in the
end-of-stream callback). -/
structure GoPlayerState where
  streamer : Option Nat
  ctrl : Option Nat
  resp : Option Nat
  lastURL : String
  playing : Bool
  initialized : Bool
deriving Repr, DecidableEq

/-- A fresh `GoPlayer` as produced by `NewGoPlayer` / `probeGoAudio`. -/
def GoPlayerState.new : GoPlayerState :=
  { streamer := none, ctrl := none, resp := none
    lastURL := "", playing := false, initialized := false }

/-- Outcomes of the effectful steps inside one `GoPlayer.Play` call.
`some msg` is the error string the failing call would produce (the `%w`/`%v`
payload of the Go wrap); `none` means the step succeeds.  `statusCode` is the
HTTP status of the response when the request goes through, and the three ids
are the identities of the freshly allocated streamer/ctrl/response. -/
structure GoPlayEnv where
  speakerInit : Option String
  newRequest : Option String
  doRequest : Option String
  statusCode : Nat
  decode : Option String
  streamerId : Nat
  ctrlId : Nat
  respId : Nat
deriving Repr, DecidableEq

/-- Source `cleanupLocked`: close and drop streamer and response body, clear `playing`. -/
def GoPlayer.cleanupLocked (g : GoPlayerState) : GoPlayerState :=
  { g with streamer := none, resp := none, playing := false }

/-- Source `stopLocked`: pause and drop the ctrl node, then `cleanupLocked`. -/
def GoPlayer.stopLocked (g : GoPlayerState) : GoPlayerState :=
  GoPlayer.cleanupLocked { g with ctrl := none }

/-- Source `GoPlayer.Play`.  Returns the post state and `none` on success or
`some errorMessage` on failure, following goaudio.go line by line:
empty-url guard, stop previous, record `lastURL`, lazy speaker init,
request construction, HTTP round trip, status check, mp3 decode, then
install the new streamer/ctrl/resp and set `playing`. -/
def GoPlayer.Play (g : GoPlayerState) (url : String) (env : GoPlayEnv) :
    GoPlayerState × Option String :=
  if url = "" then (g, some "stream url is required")
  else
    let g := GoPlayer.stopLocked g
    let g := { g with lastURL := url }
    match (if g.initialized then none else env.speakerInit) with
    | some msg => (g, some ("speaker init: " ++ msg))
    | none =>
      let g := { g with initialized := true }
      match env.newRequest with
      | some msg => (g, some ("request: " ++ msg))
      | none =>
        match env.doRequest with
        | some msg => (g, some ("stream open: " ++ msg))
        | none =>
          if env.statusCode ≠ 200 then
            (g, some ("stream HTTP " ++ toString env.statusCode))
          else
            match env.decode with
            | some msg => (g, some ("mp3 decode: " ++ msg))
            | none =>
              ({ g with streamer := some env.streamerId
                        ctrl := some env.ctrlId
                        resp := some env.respId
                        playing := true }, none)

/-- Source `GoPlayer.Stop`: `stopLocked` under the lock; always returns nil. -/
def GoPlayer.Stop (g : GoPlayerState) : GoPlayerState × Option String :=
  (GoPlayer.stopLocked g, none)

/-- The end-of-stream callback registered by `Play`: if the ended ctrl node is
still the tracked one, clear `playing` and release resources; a stale
callback is dropped. -/
def GoPlayer.streamEnded (g : GoPlayerState) (endedCtrl : Nat) : GoPlayerState :=
  if g.ctrl = some endedCtrl then
    GoPlayer.cleanupLocked { g with playing := false }
  else g

def GoPlayer.IsPlaying (g : GoPlayerState) : Bool := g.playing

def GoPlayer.LastURL (g : GoPlayerState) : String := g.lastURL

/-! ## External-process backend: `Player` (internal/player/mpv.go) -/

/-- State of the external `Player`: the tracked child process (as a pid
identity), the selected backend name, its executable path, and the last URL. -/
structure PlayerState where
  cmd : Option Nat
  backend : String
  path : String
  lastURL : String
deriving Repr, DecidableEq

/-- Outcome of the `cmd.Start()` call and the pid of the child it would
spawn on success. -/
structure ExtPlayEnv where
  startErr : Option String
  pid : Nat
deriving Repr, DecidableEq

/-- Source `stopLocked`: kill the tracked process if present and clear the handle;
always returns nil (killing an exited process is tolerated). -/
def Player.stopLocked (p : PlayerState) : PlayerState :=
  { p with cmd := none }

/-- Source `Player.Play`: empty-url guard, stop previous process, record `lastURL`,
select the command line by backend name (unknown backend is an error), start
the child, and track its handle.  The per-binary flags only shape the spawned
argv and are not otherwise observable here. -/
def Player.Play (p : PlayerState) (url : String) (env : ExtPlayEnv) :
    PlayerState × Option String :=
  if url = "" then (p, some "stream url is required")
  else
    let p := Player.stopLocked p
    let p := { p with lastURL := url }
    if p.backend = "mpv" ∨ p.backend = "ffplay" then
      match env.startErr with
      | some msg => (p, some msg)
      | none => ({ p with cmd := some env.pid }, none)
    else
      (p, some "no audio backend available")

/-- Source `Player.Stop`: `stopLocked` under the lock. -/
def Player.Stop (p : PlayerState) : PlayerState × Option String :=
  (Player.stopLocked p, none)

/-- The watcher goroutine body after `Wait` returns: clear the handle only if
it still matches the process that was started. -/
def Player.processExited (p : PlayerState) (exitedPid : Nat) : PlayerState :=
  if p.cmd = some exitedPid then { p with cmd := none } else p

def Player.IsPlaying (p : PlayerState) : Bool := p.cmd.isSome

def Player.LastURL (p : PlayerState) : String := p.lastURL

/-! ## Executable lookup for the external backend (internal/player/mpv.go) -/

/-- The filesystem/PATH facts consulted during `newExternal`:
the directory of the running binary (`none` when `os.Executable` fails),
the executability predicate (`isExecutable` over `os.Stat`), the outcome of
the downloaded-player lookup, and the `exec.LookPath` results for
`"mpv"` and `"ffplay"`. -/
structure ExternalLookupEnv where
  exeDir : Option String
  isExec : String → Bool
  downloaded : Option (String × String)
  mpvOnPath : Option String
  ffplayOnPath : Option String

/-- The candidate (backend, file name) pairs tried by `findBundledPlayer`,
in order. -/
def bundledCandidates : List (String × String) :=
  [("mpv", "mpv"), ("mpv", "mpv.exe"), ("ffplay", "ffplay"), ("ffplay", "ffplay.exe")]

/-- Source `findBundledPlayer`: look next to the running binary for the candidates in
order; first executable hit wins.  Returns (path, backend), or two empty
strings when nothing is found (also when `os.Executable` fails). -/
def findBundledPlayer (env : ExternalLookupEnv) : String × String :=
  match env.exeDir with
  | none => ("", "")
  | some dir =>
    match bundledCandidates.find? (fun cand => env.isExec (dir ++ "/" ++ cand.2)) with
    | some cand => (dir ++ "/" ++ cand.2, cand.1)
    | none => ("", "")

/-- Modelled from the spec: `findDownloadedPlayer` is called by `newExternal`
in mpv.go but its definition is not among the sources here.  Per the spec it
looks for "a previously downloaded player in a known support directory" and,
like `findBundledPlayer`, yields a (path, backend) pair or empty strings when
none exists; the environment field `downloaded` carries that lookup's
outcome. -/
def findDownloadedPlayer (env : ExternalLookupEnv) : String × String :=
  match env.downloaded with
  | some pb => pb
  | none => ("", "")

/-- Source `newExternal`: strict priority — bundled, downloaded, `mpv` on PATH,
`ffplay` on PATH; first hit wins, otherwise an error. -/
def newExternal (env : ExternalLookupEnv) : Except String PlayerState :=
  let b := findBundledPlayer env
  if b.1 ≠ "" then
    Except.ok { cmd := none, backend := b.2, path := b.1, lastURL := "" }
  else
    let d := findDownloadedPlayer env
    if d.1 ≠ "" then
      Except.ok { cmd := none, backend := d.2, path := d.1, lastURL := "" }
    else
      match env.mpvOnPath with
      | some path => Except.ok { cmd := none, backend := "mpv", path := path, lastURL := "" }
      | none =>
        match env.ffplayOnPath with
        | some path => Except.ok { cmd := none, backend := "ffplay", path := path, lastURL := "" }
        | none => Except.error "mpv or ffplay not found (bundle one or add to PATH)"

/-! ## Composite backend (internal/player composite file) -/

/-- Which concrete backend the composite's `active` interface value points at
(`c.active` aliases `c.gp` or `c.ext`). -/
inductive ActiveTag
  | goTag
  | extTag
deriving Repr, DecidableEq

/-- Source `CompositeBackend` state: the optional pure-Go backend, the optional
external backend, the interface value of the currently active backend, and
the composite's own `lastURL`. -/
structure CompositeState where
  gp : Option GoPlayerState
  ext : Option PlayerState
  active : Option ActiveTag
  lastURL : String
deriving Repr, DecidableEq

/-- The `c.active.Stop()` call at the top of `CompositeBackend.Play`:
stop whichever backend the active interface value aliases. -/
def CompositeBackend.stopActive (c : CompositeState) : CompositeState :=
  match c.active with
  | none => c
  | some ActiveTag.goTag => { c with gp := c.gp.map (fun g => (GoPlayer.Stop g).1) }
  | some ActiveTag.extTag => { c with ext := c.ext.map (fun e => (Player.Stop e).1) }

/-- The fallback-to-external tail of `CompositeBackend.Play`: try the external
player if present, else build the final error from the remembered Go-backend
error. -/
def CompositeBackend.tryExternal (c : CompositeState) (url : String)
    (eenv : ExtPlayEnv) (errGo : Option String) : CompositeState × Option String :=
  match c.ext with
  | some e =>
    match Player.Play e url eenv with
    | (e', none) => ({ c with ext := some e', active := some ActiveTag.extTag }, none)
    | (e', some errExt) =>
      match errGo with
      | some gmsg =>
        ({ c with ext := some e' },
          some ("go-audio: " ++ gmsg ++ ", external: " ++ errExt))
      | none => ({ c with ext := some e' }, some errExt)
  | none =>
    match errGo with
    | some gmsg =>
      (c, some ("format not supported in pure Go; please install mpv or ffplay to listen (error: "
        ++ gmsg ++ ")"))
    | none => (c, some "no audio backend available; please install mpv or ffplay")

/-- Source `CompositeBackend.Play`: record `lastURL` unconditionally, stop the
currently active backend, try the pure-Go backend first, fall back to the
external player, combining errors as in the source. -/
def CompositeBackend.Play (c : CompositeState) (url : String)
    (genv : GoPlayEnv) (eenv : ExtPlayEnv) : CompositeState × Option String :=
  let c1 := CompositeBackend.stopActive { c with lastURL := url }
  match c1.gp with
  | some g =>
    match GoPlayer.Play g url genv with
    | (g', none) => ({ c1 with gp := some g', active := some ActiveTag.goTag }, none)
    | (g', some errGo) =>
      CompositeBackend.tryExternal { c1 with gp := some g' } url eenv (some errGo)
  | none => CompositeBackend.tryExternal c1 url eenv none

/-- Source `CompositeBackend.Stop`: delegate to the active backend if set,
otherwise nil. -/
def CompositeBackend.Stop (c : CompositeState) : CompositeState × Option String :=
  match c.active with
  | none => (c, none)
  | some ActiveTag.goTag =>
    match c.gp with
    | some g => ({ c with gp := some (GoPlayer.Stop g).1 }, (GoPlayer.Stop g).2)
    | none => (c, none)
  | some ActiveTag.extTag =>
    match c.ext with
    | some e => ({ c with ext := some (Player.Stop e).1 }, (Player.Stop e).2)
    | none => (c, none)

/-- Source `CompositeBackend.IsPlaying`: `c.active != nil && c.active.IsPlaying()`. -/
def CompositeBackend.IsPlaying (c : CompositeState) : Bool :=
  match c.active with
  | none => false
  | some ActiveTag.goTag => (c.gp.map GoPlayer.IsPlaying).getD false
  | some ActiveTag.extTag => (c.ext.map Player.IsPlaying).getD false

/-- Source `CompositeBackend.LastURL`: the composite's own recorded URL. -/
def CompositeBackend.LastURL (c : CompositeState) : String := c.lastURL

/-- Source `New`: pure-Go backend always probes successfully (`probeGoAudio` returns a
fresh `GoPlayer`), the external backend is optional. -/
def CompositeBackend.New (ext : Option PlayerState) : CompositeState :=
  { gp := some GoPlayerState.new, ext := ext, active := none, lastURL := "" }

/-! ## UI session model and IPC dispatch (internal/ui) -/

/-- Go `strings.ToUpper`, modelled over the character list.  `Char.toUpper`
maps ASCII lowercase to uppercase and leaves other characters alone, which is
all the command tokens exercise. -/
def strToUpper (s : String) : String := String.mk (s.data.map Char.toUpper)

/-- Go `strings.TrimSpace`, modelled over the character list: drop leading
and trailing whitespace. -/
def strTrim (s : String) : String :=
  String.mk (((s.data.dropWhile Char.isWhitespace).reverse.dropWhile
    Char.isWhitespace).reverse)

/-- The fields of `radio.Station` used by the session model's selection and
status logic. -/
structure Station where
  uuid : String
  name : String
  country : String
  tags : String
deriving Repr, DecidableEq

/-- Source `ipcReply`: one control reply — success flag, payload, error message. -/
structure IpcReply where
  ok : Bool
  data : String
  err : String
deriving Repr, DecidableEq

/-- The slice of the bubbletea `Model` that the IPC dispatch reads and writes:
station list, search-filtered list, the search input's current value, the
selection index, the play flag and the active country filter.  Rendering
fields (theme, dial floats, window size) are not observable by any IPC
behavior and are left out. -/
structure Model where
  stations : List Station
  filtered : List Station
  searchValue : String
  selected : Int
  playing : Bool
  country : String
deriving Repr, DecidableEq

/-- Source `visibleStations`: the filtered list while a search query is active,
otherwise all stations. -/
def Model.visibleStations (m : Model) : List Station :=
  if strTrim m.searchValue ≠ "" then m.filtered else m.stations

/-- Source `currentStation`: the station under the selection index, when the visible
list is non-empty and the index is in range. -/
def Model.currentStation (m : Model) : Option Station :=
  let list := m.visibleStations
  if list.length = 0 then none
  else if m.selected < 0 ∨ (list.length : Int) ≤ m.selected then none
  else list.get? m.selected.toNat

/-- Source `moveSelection`: shift the selection by `delta` within the visible list,
clamped at both ends (no wraparound); no-op on an empty list.  (The dial
animation target it also updates is a rendering float, not modelled.) -/
def Model.moveSelection (m : Model) (delta : Int) : Model :=
  let list := m.visibleStations
  if list.length = 0 then m
  else
    let s := m.selected + delta
    let s := if s < 0 then 0 else s
    let s := if (list.length : Int) ≤ s then (list.length : Int) - 1 else s
    { m with selected := s }

/-- One character of Go `%q` quoting: escape the quote, backslash and the
common control characters; printable characters pass through unchanged. -/
def goQuoteChar (c : Char) : String :=
  if c = '"' then "\\\""
  else if c = '\\' then "\\\\"
  else if c = '\n' then "\\n"
  else if c = '\t' then "\\t"
  else if c = '\r' then "\\r"
  else String.singleton c

/-- Go `%q` applied to a string: the quoted, escaped form. -/
def goQuote (s : String) : String :=
  "\"" ++ String.join (s.data.map goQuoteChar) ++ "\""

/-- Source `ipcStatus`: the compact JSON status line, built synchronously from the
current state with `fmt.Sprintf`: play flag, selected station name (the zero
station's empty name — and any empty name — becomes the placeholder `-`),
and the active country filter. -/
def Model.ipcStatus (m : Model) : String :=
  let station := (m.currentStation).getD { uuid := "", name := "", country := "", tags := "" }
  let name := if station.name = "" then "-" else station.name
  let playing := if m.playing then "true" else "false"
  "\x7b\"playing\":" ++ playing ++ ",\"station\":" ++ goQuote name
    ++ ",\"country\":" ++ goQuote m.country ++ "\x7d"

/-- Modelled from the spec: `parseIPCCommand` is exercised by
`internal/ui/ipc_test.go` and called by `Model.handleIPC`, but its own
definition is not among the sources here.  Per the spec the server trims
surrounding whitespace from the received line and upper-cases it to obtain
the candidate command token, and an empty token after trimming is a parse
error. -/
def parseIPCCommand (raw : String) : Except String String :=
  let token := strToUpper (strTrim raw)
  if token = "" then Except.error "empty command" else Except.ok token

/-- Source `ipcPlayPause`: stop and flip the play flag when playing; otherwise answer
`QUEUED` for the selected station (the asynchronous URL-resolution-and-play
command it schedules is outside this state transition) or fail when nothing
is selected. -/
def Model.ipcPlayPause (m : Model) : Model × IpcReply :=
  if m.playing then
    ({ m with playing := false }, { ok := true, data := "", err := "" })
  else
    match m.currentStation with
    | none => (m, { ok := false, data := "", err := "no station selected" })
    | some _ => (m, { ok := true, data := "QUEUED", err := "" })

/-- Source `ipcSelectAndPlay`: move the selection by `delta` and queue playback of the
newly selected station; fail when no stations are visible. -/
def Model.ipcSelectAndPlay (m : Model) (delta : Int) : Model × IpcReply :=
  if m.visibleStations.length = 0 then
    (m, { ok := false, data := "", err := "no stations available" })
  else
    let m := m.moveSelection delta
    match m.currentStation with
    | none => (m, { ok := false, data := "", err := "no station selected" })
    | some _ => (m, { ok := true, data := "QUEUED", err := "" })

/-- Result of one `handleIPC` dispatch: the updated model, the replies passed
to `sendIPCReply` in order, and whether the session quits (`tea.Quit`). -/
structure IpcStep where
  model : Model
  replies : List IpcReply
  quit : Bool
deriving Repr, DecidableEq

/-- Source `Model.handleIPC`: parse the received command line and dispatch on the
token, producing exactly one reply per dispatch; unknown tokens get the fixed
`unknown command` failure.  (`QUIT` also stops the player and closes the IPC
server before quitting; those resources live outside this model slice.) -/
def Model.handleIPC (m : Model) (rawCmd : String) : IpcStep :=
  match parseIPCCommand rawCmd with
  | Except.error e => { model := m, replies := [{ ok := false, data := "", err := e }], quit := false }
  | Except.ok cmd =>
    if cmd = "PLAY_PAUSE" then
      let r := m.ipcPlayPause
      { model := r.1, replies := [r.2], quit := false }
    else if cmd = "NEXT" then
      let r := m.ipcSelectAndPlay 1
      { model := r.1, replies := [r.2], quit := false }
    else if cmd = "PREV" then
      let r := m.ipcSelectAndPlay (-1)
      { model := r.1, replies := [r.2], quit := false }
    else if cmd = "QUIT" then
      { model := m, replies := [{ ok := true, data := "", err := "" }], quit := true }
    else if cmd = "STATUS" then
      { model := m, replies := [{ ok := true, data := m.ipcStatus, err := "" }], quit := false }
    else if cmd = "PING" then
      { model := m, replies := [{ ok := true, data := "OK", err := "" }], quit := false }
    else
      { model := m, replies := [{ ok := false, data := "", err := "unknown command" }], quit := false }

/-! ## Reply delivery: `sendIPCReply` -/

/-- A reply channel as the dispatcher sees it: capacity and buffered
contents. -/
structure IpcChan where
  cap : Nat
  buf : List IpcReply
deriving Repr, DecidableEq

/-- The fixed reply-delivery window of `sendIPCReply`:
`time.After(200 * time.Millisecond)`. -/
def replyTimeoutMillis : Nat := 200

/-- How one `sendIPCReply` call ended. -/
inductive SendOutcome
  | nilChannel
  | delivered
  | droppedAfterTimeout
deriving Repr, DecidableEq

/-- Source `sendIPCReply`: a nil channel is ignored; otherwise a `select` either
sends the reply or takes the 200 ms timeout branch and drops it.  Whether the
channel can accept the reply within the window (free buffer space or a ready
receiver) is a runtime fact, passed as `canAcceptWithinWindow`; the function
itself always returns — it never blocks past the window. -/
def sendIPCReply (ch : Option IpcChan) (reply : IpcReply)
    (canAcceptWithinWindow : Bool) : Option IpcChan × SendOutcome :=
  match ch with
  | none => (none, SendOutcome.nilChannel)
  | some c =>
    if canAcceptWithinWindow then
      (some { c with buf := c.buf ++ [reply] }, SendOutcome.delivered)
    else
      (some c, SendOutcome.droppedAfterTimeout)

/-! ## Derived characterizations of the two concrete backends

The error outcome of `GoPlayer.Play` depends on its state only through the
`initialized` flag, and that of `Player.Play` only through the `backend`
name.  The functions below restate those outcomes as functions of exactly
those inputs; the lemmas prove they agree with the embedded methods. -/

/-- The error outcome of `GoPlayer.Play`, as a function of the `initialized`
flag, the url and the environment. -/
def goPlayErr (initialized : Bool) (url : String) (env : GoPlayEnv) : Option String :=
  if url = "" then some "stream url is required"
  else
    match (if initialized then none else env.speakerInit) with
    | some msg => some ("speaker init: " ++ msg)
    | none =>
      match env.newRequest with
      | some msg => some ("request: " ++ msg)
      | none =>
        match env.doRequest with
        | some msg => some ("stream open: " ++ msg)
        | none =>
          if env.statusCode ≠ 200 then some ("stream HTTP " ++ toString env.statusCode)
          else
            match env.decode with
            | some msg => some ("mp3 decode: " ++ msg)
            | none => none

/-- The error outcome of `Player.Play`, as a function of the backend name,
the url and the environment. -/
def extPlayErr (backend : String) (url : String) (env : ExtPlayEnv) : Option String :=
  if url = "" then some "stream url is required"
  else if backend = "mpv" ∨ backend = "ffplay" then
    match env.startErr with
    | some msg => some msg
    | none => none
  else some "no audio backend available"

theorem goPlay_snd (g : GoPlayerState) (url : String) (env : GoPlayEnv) :
    (GoPlayer.Play g url env).2 = goPlayErr g.initialized url env := by
  by_cases h : url = "" <;>
    cases hI : g.initialized <;>
      rcases h1 : env.speakerInit with _ | m1 <;>
        rcases h2 : env.newRequest with _ | m2 <;>
          rcases h3 : env.doRequest with _ | m3 <;>
            by_cases hc : env.statusCode = 200 <;>
              rcases h4 : env.decode with _ | m4 <;>
                simp_all [GoPlayer.Play, goPlayErr, GoPlayer.stopLocked,
                  GoPlayer.cleanupLocked]

theorem extPlay_snd (p : PlayerState) (url : String) (env : ExtPlayEnv) :
    (Player.Play p url env).2 = extPlayErr p.backend url env := by
  by_cases h : url = "" <;>
    by_cases hb : p.backend = "mpv" ∨ p.backend = "ffplay" <;>
      rcases h1 : env.startErr with _ | m1 <;>
        simp_all [Player.Play, extPlayErr, Player.stopLocked]

theorem goPlay_empty (g : GoPlayerState) (env : GoPlayEnv) :
    GoPlayer.Play g "" env = (g, some "stream url is required") := rfl

theorem extPlay_empty (p : PlayerState) (env : ExtPlayEnv) :
    Player.Play p "" env = (p, some "stream url is required") := rfl

theorem goPlay_playing (g : GoPlayerState) (url : String) (env : GoPlayEnv)
    (h : url ≠ "") :
    (GoPlayer.Play g url env).1.playing = (goPlayErr g.initialized url env).isNone := by
  cases hI : g.initialized <;>
    rcases h1 : env.speakerInit with _ | m1 <;>
      rcases h2 : env.newRequest with _ | m2 <;>
        rcases h3 : env.doRequest with _ | m3 <;>
          by_cases hc : env.statusCode = 200 <;>
            rcases h4 : env.decode with _ | m4 <;>
              simp_all [GoPlayer.Play, goPlayErr, GoPlayer.stopLocked,
                GoPlayer.cleanupLocked]

theorem goPlay_lastURL (g : GoPlayerState) (url : String) (env : GoPlayEnv)
    (h : url ≠ "") :
    (GoPlayer.Play g url env).1.lastURL = url := by
  cases hI : g.initialized <;>
    rcases h1 : env.speakerInit with _ | m1 <;>
      rcases h2 : env.newRequest with _ | m2 <;>
        rcases h3 : env.doRequest with _ | m3 <;>
          by_cases hc : env.statusCode = 200 <;>
            rcases h4 : env.decode with _ | m4 <;>
              simp_all [GoPlayer.Play, GoPlayer.stopLocked, GoPlayer.cleanupLocked]

theorem goPlay_initialized_stop (g : GoPlayerState) :
    (GoPlayer.stopLocked g).initialized = g.initialized := rfl

theorem extPlay_cmd (p : PlayerState) (url : String) (env : ExtPlayEnv)
    (h : url ≠ "") :
    (Player.Play p url env).1.cmd =
      (if (extPlayErr p.backend url env).isNone then some env.pid else none) := by
  by_cases hb : p.backend = "mpv" ∨ p.backend = "ffplay" <;>
    rcases h1 : env.startErr with _ | m1 <;>
      simp_all [Player.Play, extPlayErr, Player.stopLocked]

theorem extPlay_lastURL (p : PlayerState) (url : String) (env : ExtPlayEnv)
    (h : url ≠ "") :
    (Player.Play p url env).1.lastURL = url := by
  by_cases hb : p.backend = "mpv" ∨ p.backend = "ffplay" <;>
    rcases h1 : env.startErr with _ | m1 <;>
      simp_all [Player.Play, Player.stopLocked]

theorem extPlay_backend (p : PlayerState) (url : String) (env : ExtPlayEnv) :
    (Player.Play p url env).1.backend = p.backend := by
  by_cases h : url = "" <;>
    by_cases hb : p.backend = "mpv" ∨ p.backend = "ffplay" <;>
      rcases h1 : env.startErr with _ | m1 <;>
        simp_all [Player.Play, Player.stopLocked]

theorem extPlay_backend_stop (p : PlayerState) :
    (Player.stopLocked p).backend = p.backend := rfl

/-! ## Characterization of the composite backend's `Play` -/

theorem stopActive_active (c : CompositeState) :
    (CompositeBackend.stopActive c).active = c.active := by
  rcases c with ⟨gp, ext, active, last⟩
  cases active with
  | none => rfl
  | some tag => cases tag <;> rfl

theorem stopActive_lastURL (c : CompositeState) :
    (CompositeBackend.stopActive c).lastURL = c.lastURL := by
  rcases c with ⟨gp, ext, active, last⟩
  cases active with
  | none => rfl
  | some tag => cases tag <;> rfl

theorem stopActive_gp (c : CompositeState) :
    (CompositeBackend.stopActive c).gp =
      (if c.active = some ActiveTag.goTag then c.gp.map GoPlayer.stopLocked else c.gp) := by
  rcases c with ⟨gp, ext, active, last⟩
  cases active with
  | none => rfl
  | some tag => cases tag <;> simp [CompositeBackend.stopActive, GoPlayer.Stop]

theorem stopActive_ext (c : CompositeState) :
    (CompositeBackend.stopActive c).ext =
      (if c.active = some ActiveTag.extTag then c.ext.map Player.stopLocked else c.ext) := by
  rcases c with ⟨gp, ext, active, last⟩
  cases active with
  | none => rfl
  | some tag => cases tag <;> simp [CompositeBackend.stopActive, Player.Stop]

/-- The part of `CompositeBackend.Play` after recording the URL and stopping
the active backend, as its own function. -/
def compositePlayCore (c1 : CompositeState) (url : String)
    (genv : GoPlayEnv) (eenv : ExtPlayEnv) : CompositeState × Option String :=
  match c1.gp with
  | some g =>
    match GoPlayer.Play g url genv with
    | (g', none) => ({ c1 with gp := some g', active := some ActiveTag.goTag }, none)
    | (g', some errGo) =>
      CompositeBackend.tryExternal { c1 with gp := some g' } url eenv (some errGo)
  | none => CompositeBackend.tryExternal c1 url eenv none

theorem compositePlay_eq_core (c : CompositeState) (url : String)
    (genv : GoPlayEnv) (eenv : ExtPlayEnv) :
    CompositeBackend.Play c url genv eenv =
      compositePlayCore (CompositeBackend.stopActive { c with lastURL := url }) url genv eenv := rfl

/-- The error outcome of a whole composite `Play` call, as a function of which
backends exist, the go backend's `initialized` flag, the external backend's
name, and the two environments. -/
def compositePlayErr (c : CompositeState) (url : String)
    (genv : GoPlayEnv) (eenv : ExtPlayEnv) : Option String :=
  match c.gp with
  | some g =>
    match goPlayErr g.initialized url genv with
    | none => none
    | some gmsg =>
      match c.ext with
      | some e =>
        match extPlayErr e.backend url eenv with
        | none => none
        | some emsg => some ("go-audio: " ++ gmsg ++ ", external: " ++ emsg)
      | none =>
        some ("format not supported in pure Go; please install mpv or ffplay to listen (error: "
          ++ gmsg ++ ")")
  | none =>
    match c.ext with
    | some e => extPlayErr e.backend url eenv
    | none => some "no audio backend available; please install mpv or ffplay"

/-- Whether the pure-Go branch of a composite `Play` succeeds. -/
def goBranchOk (c : CompositeState) (url : String) (genv : GoPlayEnv) : Bool :=
  match c.gp with
  | some g => (goPlayErr g.initialized url genv).isNone
  | none => false

/-- The active backend after a composite `Play` call. -/
def compositePlayActive (c : CompositeState) (url : String)
    (genv : GoPlayEnv) (eenv : ExtPlayEnv) : Option ActiveTag :=
  match c.gp with
  | some g =>
    match goPlayErr g.initialized url genv with
    | none => some ActiveTag.goTag
    | some _ =>
      match c.ext with
      | some e =>
        if (extPlayErr e.backend url eenv).isNone then some ActiveTag.extTag else c.active
      | none => c.active
  | none =>
    match c.ext with
    | some e =>
      if (extPlayErr e.backend url eenv).isNone then some ActiveTag.extTag else c.active
    | none => c.active

theorem core_snd (c1 : CompositeState) (url : String)
    (genv : GoPlayEnv) (eenv : ExtPlayEnv) :
    (compositePlayCore c1 url genv eenv).2 = compositePlayErr c1 url genv eenv := by
  rcases hgp : c1.gp with _ | g
  · rcases hext : c1.ext with _ | e
    · simp [compositePlayCore, hgp, compositePlayErr, hext, CompositeBackend.tryExternal]
    · rcases hE : Player.Play e url eenv with ⟨e2, r⟩
      have hr : extPlayErr e.backend url eenv = r := by
        rw [← extPlay_snd e url eenv, hE]
      cases r <;>
        simp_all [compositePlayCore, hgp, compositePlayErr, hext, CompositeBackend.tryExternal, hE]
  · rcases hG : GoPlayer.Play g url genv with ⟨g2, rg⟩
    have hrg : goPlayErr g.initialized url genv = rg := by
      rw [← goPlay_snd g url genv, hG]
    rcases hext : c1.ext with _ | e
    · cases rg <;>
        simp_all [compositePlayCore, hgp, compositePlayErr, hext, CompositeBackend.tryExternal, hG]
    · rcases hE : Player.Play e url eenv with ⟨e2, re⟩
      have hre : extPlayErr e.backend url eenv = re := by
        rw [← extPlay_snd e url eenv, hE]
      cases rg <;> cases re <;>
        simp_all [compositePlayCore, hgp, compositePlayErr, hext, CompositeBackend.tryExternal, hG, hE]

theorem core_active (c1 : CompositeState) (url : String)
    (genv : GoPlayEnv) (eenv : ExtPlayEnv) :
    (compositePlayCore c1 url genv eenv).1.active = compositePlayActive c1 url genv eenv := by
  rcases hgp : c1.gp with _ | g
  · rcases hext : c1.ext with _ | e
    · simp [compositePlayCore, hgp, compositePlayActive, hext, CompositeBackend.tryExternal]
    · rcases hE : Player.Play e url eenv with ⟨e2, r⟩
      have hr : extPlayErr e.backend url eenv = r := by
        rw [← extPlay_snd e url eenv, hE]
      cases r <;>
        simp_all [compositePlayCore, hgp, compositePlayActive, hext, CompositeBackend.tryExternal, hE]
  · rcases hG : GoPlayer.Play g url genv with ⟨g2, rg⟩
    have hrg : goPlayErr g.initialized url genv = rg := by
      rw [← goPlay_snd g url genv, hG]
    rcases hext : c1.ext with _ | e
    · cases rg <;>
        simp_all [compositePlayCore, hgp, compositePlayActive, hext, CompositeBackend.tryExternal, hG]
    · rcases hE : Player.Play e url eenv with ⟨e2, re⟩
      have hre : extPlayErr e.backend url eenv = re := by
        rw [← extPlay_snd e url eenv, hE]
      cases rg <;> cases re <;>
        simp_all [compositePlayCore, hgp, compositePlayActive, hext, CompositeBackend.tryExternal, hG, hE]

theorem core_gp (c1 : CompositeState) (url : String)
    (genv : GoPlayEnv) (eenv : ExtPlayEnv) :
    (compositePlayCore c1 url genv eenv).1.gp =
      c1.gp.map (fun g => (GoPlayer.Play g url genv).1) := by
  rcases hgp : c1.gp with _ | g
  · rcases hext : c1.ext with _ | e
    · simp [compositePlayCore, hgp, hext, CompositeBackend.tryExternal]
    · rcases hE : Player.Play e url eenv with ⟨e2, r⟩
      cases r <;>
        simp_all [compositePlayCore, hgp, hext, CompositeBackend.tryExternal, hE]
  · rcases hG : GoPlayer.Play g url genv with ⟨g2, rg⟩
    rcases hext : c1.ext with _ | e
    · cases rg <;>
        simp_all [compositePlayCore, hgp, hext, CompositeBackend.tryExternal, hG]
    · rcases hE : Player.Play e url eenv with ⟨e2, re⟩
      cases rg <;> cases re <;>
        simp_all [compositePlayCore, hgp, hext, CompositeBackend.tryExternal, hG, hE]

theorem core_ext (c1 : CompositeState) (url : String)
    (genv : GoPlayEnv) (eenv : ExtPlayEnv) :
    (compositePlayCore c1 url genv eenv).1.ext =
      (if goBranchOk c1 url genv then c1.ext
       else c1.ext.map (fun e => (Player.Play e url eenv).1)) := by
  rcases hgp : c1.gp with _ | g
  · rcases hext : c1.ext with _ | e
    · simp [compositePlayCore, hgp, hext, goBranchOk, CompositeBackend.tryExternal]
    · rcases hE : Player.Play e url eenv with ⟨e2, r⟩
      cases r <;>
        simp_all [compositePlayCore, hgp, hext, goBranchOk, CompositeBackend.tryExternal, hE]
  · rcases hG : GoPlayer.Play g url genv with ⟨g2, rg⟩
    have hrg : goPlayErr g.initialized url genv = rg := by
      rw [← goPlay_snd g url genv, hG]
    rcases hext : c1.ext with _ | e
    · cases rg <;>
        simp_all [compositePlayCore, hgp, hext, goBranchOk, CompositeBackend.tryExternal, hG]
    · rcases hE : Player.Play e url eenv with ⟨e2, re⟩
      cases rg <;> cases re <;>
        simp_all [compositePlayCore, hgp, hext, goBranchOk, CompositeBackend.tryExternal, hG, hE]

theorem core_lastURL (c1 : CompositeState) (url : String)
    (genv : GoPlayEnv) (eenv : ExtPlayEnv) :
    (compositePlayCore c1 url genv eenv).1.lastURL = c1.lastURL := by
  rcases hgp : c1.gp with _ | g
  · rcases hext : c1.ext with _ | e
    · simp [compositePlayCore, hgp, hext, CompositeBackend.tryExternal]
    · rcases hE : Player.Play e url eenv with ⟨e2, r⟩
      cases r <;>
        simp_all [compositePlayCore, hgp, hext, CompositeBackend.tryExternal, hE]
  · rcases hG : GoPlayer.Play g url genv with ⟨g2, rg⟩
    rcases hext : c1.ext with _ | e
    · cases rg <;>
        simp_all [compositePlayCore, hgp, hext, CompositeBackend.tryExternal, hG]
    · rcases hE : Player.Play e url eenv with ⟨e2, re⟩
      cases rg <;> cases re <;>
        simp_all [compositePlayCore, hgp, hext, CompositeBackend.tryExternal, hG, hE]

theorem compositePlayErr_stopActive (c : CompositeState) (url : String)
    (genv : GoPlayEnv) (eenv : ExtPlayEnv) :
    compositePlayErr (CompositeBackend.stopActive { c with lastURL := url }) url genv eenv =
      compositePlayErr c url genv eenv := by
  rcases c with ⟨gp, ext, active, last⟩
  rcases active with _ | tag
  · rfl
  · cases tag <;> cases gp <;> cases ext <;>
      simp [compositePlayErr, CompositeBackend.stopActive, GoPlayer.Stop, Player.Stop,
        GoPlayer.stopLocked, GoPlayer.cleanupLocked, Player.stopLocked]

theorem compositePlayActive_stopActive (c : CompositeState) (url : String)
    (genv : GoPlayEnv) (eenv : ExtPlayEnv) :
    compositePlayActive (CompositeBackend.stopActive { c with lastURL := url }) url genv eenv =
      compositePlayActive c url genv eenv := by
  rcases c with ⟨gp, ext, active, last⟩
  rcases active with _ | tag
  · rfl
  · cases tag <;> cases gp <;> cases ext <;>
      simp [compositePlayActive, CompositeBackend.stopActive, GoPlayer.Stop, Player.Stop,
        GoPlayer.stopLocked, GoPlayer.cleanupLocked, Player.stopLocked]

theorem goBranchOk_stopActive (c : CompositeState) (url : String) (genv : GoPlayEnv) :
    goBranchOk (CompositeBackend.stopActive { c with lastURL := url }) url genv =
      goBranchOk c url genv := by
  rcases c with ⟨gp, ext, active, last⟩
  rcases active with _ | tag
  · rfl
  · cases tag <;> cases gp <;> cases ext <;>
      simp [goBranchOk, CompositeBackend.stopActive, GoPlayer.Stop, Player.Stop,
        GoPlayer.stopLocked, GoPlayer.cleanupLocked, Player.stopLocked]

theorem compositePlay_snd (c : CompositeState) (url : String)
    (genv : GoPlayEnv) (eenv : ExtPlayEnv) :
    (CompositeBackend.Play c url genv eenv).2 = compositePlayErr c url genv eenv := by
  rw [compositePlay_eq_core, core_snd, compositePlayErr_stopActive]

theorem compositePlay_active (c : CompositeState) (url : String)
    (genv : GoPlayEnv) (eenv : ExtPlayEnv) :
    (CompositeBackend.Play c url genv eenv).1.active = compositePlayActive c url genv eenv := by
  rw [compositePlay_eq_core, core_active, compositePlayActive_stopActive]

theorem compositePlay_lastURL (c : CompositeState) (url : String)
    (genv : GoPlayEnv) (eenv : ExtPlayEnv) :
    (CompositeBackend.Play c url genv eenv).1.lastURL = url := by
  rw [compositePlay_eq_core, core_lastURL, stopActive_lastURL]

theorem compositePlay_gp (c : CompositeState) (url : String)
    (genv : GoPlayEnv) (eenv : ExtPlayEnv) :
    (CompositeBackend.Play c url genv eenv).1.gp =
      ((if c.active = some ActiveTag.goTag then c.gp.map GoPlayer.stopLocked else c.gp).map
        (fun g => (GoPlayer.Play g url genv).1)) := by
  rw [compositePlay_eq_core, core_gp, stopActive_gp]

theorem compositePlay_ext (c : CompositeState) (url : String)
    (genv : GoPlayEnv) (eenv : ExtPlayEnv) :
    (CompositeBackend.Play c url genv eenv).1.ext =
      (let stopped := if c.active = some ActiveTag.extTag then c.ext.map Player.stopLocked else c.ext
       if goBranchOk c url genv then stopped
       else stopped.map (fun e => (Player.Play e url eenv).1)) := by
  rw [compositePlay_eq_core, core_ext, stopActive_ext, goBranchOk_stopActive]

/-! ## Resource-exclusivity invariant of the composite -/

/-- The pure-Go backend currently holds playback resources. -/
def gpHolding (c : CompositeState) : Bool :=
  match c.gp with
  | some g => g.playing
  | none => false

/-- The external backend currently holds a running child process. -/
def extHolding (c : CompositeState) : Bool :=
  match c.ext with
  | some e => e.cmd.isSome
  | none => false

/-- The composite's resource invariant: a sub-backend holding playback
resources is the one the `active` interface value points at.  It holds for
the fresh composite produced by `New` and, as proved below, is preserved by
`Play` and `Stop`. -/
def CompositeBackend.invB (c : CompositeState) : Bool :=
  (!gpHolding c || (c.active == some ActiveTag.goTag)) &&
  (!extHolding c || (c.active == some ActiveTag.extTag))

/-- Both backends hold playback resources at once. -/
def CompositeBackend.bothHolding (c : CompositeState) : Bool :=
  gpHolding c && extHolding c

theorem invB_not_bothHolding (c : CompositeState)
    (h : CompositeBackend.invB c = true) : CompositeBackend.bothHolding c = false := by
  unfold CompositeBackend.invB at h
  unfold CompositeBackend.bothHolding
  rcases hg : gpHolding c <;> rcases he : extHolding c <;> simp_all
  rcases h with ⟨h1, h2⟩
  rw [h1] at h2
  simp at h2

theorem invB_new (ext : Option PlayerState) (h : extHolding (CompositeBackend.New ext) = false) :
    CompositeBackend.invB (CompositeBackend.New ext) = true := by
  unfold CompositeBackend.invB
  rw [h]
  simp [gpHolding, CompositeBackend.New, GoPlayerState.new]

theorem stopActive_quiet (c : CompositeState) (url : String)
    (h : CompositeBackend.invB c = true) :
    gpHolding (CompositeBackend.stopActive { c with lastURL := url }) = false ∧
      extHolding (CompositeBackend.stopActive { c with lastURL := url }) = false := by
  rcases c with ⟨gp, ext, active, last⟩
  rcases active with _ | tag
  · cases gp <;> cases ext <;>
      simp_all [CompositeBackend.invB, gpHolding, extHolding, CompositeBackend.stopActive]
  · cases tag <;> cases gp <;> cases ext <;>
      simp_all [CompositeBackend.invB, gpHolding, extHolding, CompositeBackend.stopActive,
        GoPlayer.Stop, Player.Stop, GoPlayer.stopLocked, GoPlayer.cleanupLocked, Player.stopLocked]

theorem core_invB (c1 : CompositeState) (url : String) (genv : GoPlayEnv) (eenv : ExtPlayEnv)
    (hg : gpHolding c1 = false) (he : extHolding c1 = false) :
    CompositeBackend.invB (compositePlayCore c1 url genv eenv).1 = true := by
  unfold CompositeBackend.invB gpHolding extHolding
  rw [core_gp, core_ext, core_active]
  unfold gpHolding at hg
  unfold extHolding at he
  rcases hgp : c1.gp with _ | g <;> rcases hext : c1.ext with _ | e
  · simp [goBranchOk, hgp, hext, compositePlayActive]
  · by_cases hurl : url = ""
    · subst hurl
      simp_all [goBranchOk, hgp, hext, compositePlayActive, extPlay_empty, extPlayErr]
    · rcases hee : extPlayErr e.backend url eenv with _ | emsg <;>
        simp_all [goBranchOk, hgp, hext, compositePlayActive, extPlay_cmd]
  · by_cases hurl : url = ""
    · subst hurl
      simp_all [goBranchOk, hgp, hext, compositePlayActive, goPlay_empty, goPlayErr]
    · rcases hgo : goPlayErr g.initialized url genv with _ | gmsg <;>
        simp_all [goBranchOk, hgp, hext, compositePlayActive, goPlay_playing]
  · by_cases hurl : url = ""
    · subst hurl
      simp_all [goBranchOk, hgp, hext, compositePlayActive, goPlay_empty, extPlay_empty,
        goPlayErr, extPlayErr]
    · rcases hgo : goPlayErr g.initialized url genv with _ | gmsg <;>
        rcases hee : extPlayErr e.backend url eenv with _ | emsg <;>
          simp_all [goBranchOk, hgp, hext, compositePlayActive, goPlay_playing, extPlay_cmd]

theorem core_quiet_fail (c1 : CompositeState) (url : String) (genv : GoPlayEnv) (eenv : ExtPlayEnv)
    (hg : gpHolding c1 = false) (he : extHolding c1 = false)
    (hfail : (compositePlayCore c1 url genv eenv).2.isSome = true) :
    gpHolding (compositePlayCore c1 url genv eenv).1 = false ∧
      extHolding (compositePlayCore c1 url genv eenv).1 = false := by
  unfold gpHolding extHolding
  rw [core_gp, core_ext]
  rw [core_snd] at hfail
  unfold gpHolding at hg
  unfold extHolding at he
  rcases hgp : c1.gp with _ | g <;> rcases hext : c1.ext with _ | e
  · simp [goBranchOk, hgp, hext]
  · by_cases hurl : url = ""
    · subst hurl
      simp_all [goBranchOk, hgp, hext, extPlay_empty, extPlayErr]
    · rcases hee : extPlayErr e.backend url eenv with _ | emsg <;>
        simp_all [goBranchOk, hgp, hext, extPlay_cmd, compositePlayErr]
  · by_cases hurl : url = ""
    · subst hurl
      simp_all [goBranchOk, hgp, hext, goPlay_empty, goPlayErr]
    · rcases hgo : goPlayErr g.initialized url genv with _ | gmsg <;>
        simp_all [goBranchOk, hgp, hext, goPlay_playing, compositePlayErr]
  · by_cases hurl : url = ""
    · subst hurl
      simp_all [goBranchOk, hgp, hext, goPlay_empty, extPlay_empty, goPlayErr, extPlayErr]
    · rcases hgo : goPlayErr g.initialized url genv with _ | gmsg <;>
        rcases hee : extPlayErr e.backend url eenv with _ | emsg <;>
          simp_all [goBranchOk, hgp, hext, goPlay_playing, extPlay_cmd, compositePlayErr]

theorem isPlaying_of_quiet (c : CompositeState)
    (hg : gpHolding c = false) (he : extHolding c = false) :
    CompositeBackend.IsPlaying c = false := by
  rcases c with ⟨gp, ext, active, last⟩
  rcases active with _ | tag
  · rfl
  · cases tag <;> cases gp <;> cases ext <;>
      simp_all [CompositeBackend.IsPlaying, gpHolding, extHolding,
        GoPlayer.IsPlaying, Player.IsPlaying]

/-! ## Basic facts about the composite's `Stop` -/

theorem compositeStop_snd (c : CompositeState) : (CompositeBackend.Stop c).2 = none := by
  rcases c with ⟨gp, ext, active, last⟩
  rcases active with _ | tag
  · rfl
  · cases tag <;> cases gp <;> cases ext <;>
      simp [CompositeBackend.Stop, GoPlayer.Stop, Player.Stop]

theorem compositeStop_active (c : CompositeState) :
    (CompositeBackend.Stop c).1.active = c.active := by
  rcases c with ⟨gp, ext, active, last⟩
  rcases active with _ | tag
  · rfl
  · cases tag <;> cases gp <;> cases ext <;>
      simp [CompositeBackend.Stop, GoPlayer.Stop, Player.Stop]

theorem compositeStop_lastURL (c : CompositeState) :
    (CompositeBackend.Stop c).1.lastURL = c.lastURL := by
  rcases c with ⟨gp, ext, active, last⟩
  rcases active with _ | tag
  · rfl
  · cases tag <;> cases gp <;> cases ext <;>
      simp [CompositeBackend.Stop, GoPlayer.Stop, Player.Stop]

theorem compositeStop_isPlaying (c : CompositeState) :
    CompositeBackend.IsPlaying (CompositeBackend.Stop c).1 = false := by
  rcases c with ⟨gp, ext, active, last⟩
  rcases active with _ | tag
  · rfl
  · cases tag <;> cases gp <;> cases ext <;>
      simp [CompositeBackend.Stop, CompositeBackend.IsPlaying, GoPlayer.Stop, Player.Stop,
        GoPlayer.stopLocked, GoPlayer.cleanupLocked, Player.stopLocked,
        GoPlayer.IsPlaying, Player.IsPlaying]

theorem compositeStop_invB (c : CompositeState) (h : CompositeBackend.invB c = true) :
    CompositeBackend.invB (CompositeBackend.Stop c).1 = true := by
  rcases c with ⟨gp, ext, active, last⟩
  rcases active with _ | tag
  · exact h
  · cases tag <;> cases gp <;> cases ext <;>
      simp_all [CompositeBackend.Stop, CompositeBackend.invB, gpHolding, extHolding,
        GoPlayer.Stop, Player.Stop, GoPlayer.stopLocked, GoPlayer.cleanupLocked,
        Player.stopLocked]

/-! ## Claim theorems -/

/-- C1: for every non-empty url, `CompositeBackend.Play` tries the in-process
decode backend first; a decode failure is not surfaced when an external
backend exists and succeeds; if both fail the error names both causes; if
only the decode backend exists and fails, the error says the format is
unsupported in pure Go and suggests installing an external player; if neither
backend exists a fixed no-backend error is returned; and on any success the
succeeding backend is recorded as active. -/
theorem composite_play_fallback_policy (c : CompositeState) (url : String)
    (genv : GoPlayEnv) (eenv : ExtPlayEnv) (hurl : url ≠ "") :
    (∀ g, c.gp = some g → (GoPlayer.Play g url genv).2 = none →
      (CompositeBackend.Play c url genv eenv).2 = none ∧
      (CompositeBackend.Play c url genv eenv).1.active = some ActiveTag.goTag) ∧
    (∀ g gmsg e, c.gp = some g → (GoPlayer.Play g url genv).2 = some gmsg → c.ext = some e →
      ((Player.Play e url eenv).2 = none →
        (CompositeBackend.Play c url genv eenv).2 = none ∧
        (CompositeBackend.Play c url genv eenv).1.active = some ActiveTag.extTag) ∧
      (∀ emsg, (Player.Play e url eenv).2 = some emsg →
        (CompositeBackend.Play c url genv eenv).2 =
          some ("go-audio: " ++ gmsg ++ ", external: " ++ emsg))) ∧
    (∀ g gmsg, c.gp = some g → (GoPlayer.Play g url genv).2 = some gmsg → c.ext = none →
      (CompositeBackend.Play c url genv eenv).2 =
        some ("format not supported in pure Go; please install mpv or ffplay to listen (error: "
          ++ gmsg ++ ")")) ∧
    (c.gp = none → c.ext = none →
      (CompositeBackend.Play c url genv eenv).2 =
        some "no audio backend available; please install mpv or ffplay") ∧
    ((CompositeBackend.Play c url genv eenv).2 = none →
      (CompositeBackend.Play c url genv eenv).1.active =
        some (if goBranchOk c url genv then ActiveTag.goTag else ActiveTag.extTag)) := by
  refine ⟨?_, ?_, ?_, ?_, ?_⟩
  · intro g hgp hok
    rw [goPlay_snd] at hok
    rw [compositePlay_snd, compositePlay_active]
    simp [compositePlayErr, compositePlayActive, hgp, hok]
  · intro g gmsg e hgp hfail hext
    rw [goPlay_snd] at hfail
    constructor
    · intro hok
      rw [extPlay_snd] at hok
      rw [compositePlay_snd, compositePlay_active]
      simp [compositePlayErr, compositePlayActive, hgp, hfail, hext, hok]
    · intro emsg hefail
      rw [extPlay_snd] at hefail
      rw [compositePlay_snd]
      simp [compositePlayErr, hgp, hfail, hext, hefail]
  · intro g gmsg hgp hfail hext
    rw [goPlay_snd] at hfail
    rw [compositePlay_snd]
    simp [compositePlayErr, hgp, hfail, hext]
  · intro hgp hext
    rw [compositePlay_snd]
    simp [compositePlayErr, hgp, hext]
  · intro hok
    rw [compositePlay_snd] at hok
    rw [compositePlay_active]
    unfold compositePlayErr at hok
    unfold compositePlayActive goBranchOk
    rcases hgp : c.gp with _ | g
    · rcases hext : c.ext with _ | e
      · simp [hgp, hext] at hok
      · rcases hee : extPlayErr e.backend url eenv with _ | emsg <;>
          simp_all [hgp, hext]
    · rcases hgo : goPlayErr g.initialized url genv with _ | gmsg
      · simp [hgp, hgo]
      · rcases hext : c.ext with _ | e
        · simp_all [hgp, hgo]
        · rcases hee : extPlayErr e.backend url eenv with _ | emsg <;>
            simp_all [hgp, hgo, hext]

/-- C2: at most one backend is active in the composite at any instant — every
`Play` stops the currently active backend before any start attempt (the
intermediate state has nothing playing), and from any state satisfying the
resource invariant, `Play` re-establishes the invariant and never leaves both
backends holding playback resources.  The stop-then-start sequence runs inside
one `Play` transition, which models the body executed under the composite's
single mutex. -/
theorem composite_play_single_active (c : CompositeState) (url : String)
    (genv : GoPlayEnv) (eenv : ExtPlayEnv) (h : CompositeBackend.invB c = true) :
    CompositeBackend.IsPlaying (CompositeBackend.stopActive { c with lastURL := url }) = false ∧
    CompositeBackend.invB (CompositeBackend.Play c url genv eenv).1 = true ∧
    CompositeBackend.bothHolding (CompositeBackend.Play c url genv eenv).1 = false := by
  obtain ⟨hg, he⟩ := stopActive_quiet c url h
  have h1 := isPlaying_of_quiet _ hg he
  have h2 : CompositeBackend.invB (CompositeBackend.Play c url genv eenv).1 = true := by
    rw [compositePlay_eq_core]
    exact core_invB _ url genv eenv hg he
  exact ⟨h1, h2, invB_not_bothHolding _ h2⟩

/-- C3: `Play` records the url as the composite's `lastURL` unconditionally —
after any `Play(url)`, successful or not, `LastURL()` returns `url`; in
particular after two sequential `Play` calls `LastURL()` is the second url. -/
theorem composite_play_records_lastURL (c : CompositeState) (url : String)
    (genv : GoPlayEnv) (eenv : ExtPlayEnv) :
    CompositeBackend.LastURL (CompositeBackend.Play c url genv eenv).1 = url ∧
    (∀ (url2 : String) (genv2 : GoPlayEnv) (eenv2 : ExtPlayEnv),
      CompositeBackend.LastURL
        (CompositeBackend.Play (CompositeBackend.Play c url genv eenv).1 url2 genv2 eenv2).1
        = url2) := by
  constructor
  · rw [CompositeBackend.LastURL, compositePlay_lastURL]
  · intro url2 genv2 eenv2
    rw [CompositeBackend.LastURL, compositePlay_lastURL]

/-- C10: a `Play` that fails on every available backend leaves nothing
playing: from any invariant-satisfying state where a backend is currently
playing, a failed `Play` ends with `IsPlaying()` false — the previously
active playback was stopped before the failed start attempts. -/
theorem composite_failed_play_stops_playback (c : CompositeState) (url : String)
    (genv : GoPlayEnv) (eenv : ExtPlayEnv)
    (hinv : CompositeBackend.invB c = true)
    (hplaying : CompositeBackend.IsPlaying c = true)
    (hfail : ((CompositeBackend.Play c url genv eenv).2).isSome = true) :
    CompositeBackend.IsPlaying (CompositeBackend.Play c url genv eenv).1 = false := by
  obtain ⟨hg, he⟩ := stopActive_quiet c url hinv
  rw [compositePlay_eq_core] at hfail ⊢
  obtain ⟨hg', he'⟩ := core_quiet_fail _ url genv eenv hg he hfail
  exact isPlaying_of_quiet _ hg' he'

/-! ## Concrete fixtures for evaluating the theorems -/

/-- An environment in which every effectful step of `GoPlayer.Play` succeeds. -/
def genvOkW : GoPlayEnv :=
  { speakerInit := none, newRequest := none, doRequest := none, statusCode := 200,
    decode := none, streamerId := 1, ctrlId := 2, respId := 3 }

/-- An environment in which the mp3 decode step fails (an AAC stream, say). -/
def genvDecodeFailW : GoPlayEnv :=
  { speakerInit := none, newRequest := none, doRequest := none, statusCode := 200,
    decode := some "aac stream", streamerId := 1, ctrlId := 2, respId := 3 }

def eenvOkW : ExtPlayEnv := { startErr := none, pid := 41 }

def eenvFailW : ExtPlayEnv := { startErr := some "spawn failed", pid := 41 }

/-- A freshly constructed external player found as `mpv`. -/
def extW : PlayerState := { cmd := none, backend := "mpv", path := "/usr/bin/mpv", lastURL := "" }

/-- A composite that has successfully started in-process playback of
`http://a`. -/
def cPlayingW : CompositeState :=
  (CompositeBackend.Play (CompositeBackend.New (some extW)) "http://a" genvOkW eenvOkW).1

theorem composite_play_fallback_policy_witness :
    (CompositeBackend.Play (CompositeBackend.New (some extW)) "http://s"
        genvDecodeFailW eenvFailW).2
      = some "go-audio: mp3 decode: aac stream, external: spawn failed" := by
  have h := composite_play_fallback_policy (CompositeBackend.New (some extW)) "http://s"
    genvDecodeFailW eenvFailW (by decide)
  exact (h.2.1 GoPlayerState.new "mp3 decode: aac stream" extW rfl (by decide) rfl).2
    "spawn failed" (by decide)

theorem composite_play_single_active_witness :
    CompositeBackend.invB (CompositeBackend.New (some extW)) = true ∧
    CompositeBackend.bothHolding
      (CompositeBackend.Play (CompositeBackend.New (some extW)) "http://s"
        genvOkW eenvOkW).1 = false := by
  refine ⟨by decide, ?_⟩
  exact (composite_play_single_active (CompositeBackend.New (some extW)) "http://s"
    genvOkW eenvOkW (by decide)).2.2

theorem composite_failed_play_stops_playback_witness :
    CompositeBackend.IsPlaying cPlayingW = true ∧
    CompositeBackend.IsPlaying
      (CompositeBackend.Play cPlayingW "http://b" genvDecodeFailW eenvFailW).1 = false := by
  refine ⟨by decide, ?_⟩
  exact composite_failed_play_stops_playback cPlayingW "http://b" genvDecodeFailW eenvFailW
    (by decide) (by decide) (by decide)

/-- The composite after a successful in-process `Play("http://a")` followed by
a failed `Play("")`: the active backend still records `http://a` as its own
last URL, while the composite's `lastURL` is the empty string. -/
def cLastURLGapW : CompositeState :=
  (CompositeBackend.Play cPlayingW "" genvOkW eenvOkW).1

/-- C4 counterexample: `LastURL()` does not delegate to the active backend.
In a reachable state with an active in-process backend, the composite's
`LastURL()` is `""` while the active backend's own `LastURL()` is
`"http://a"` — so the claim that `LastURL()` delegates to the active backend
when one is set is false. -/
theorem composite_lastURL_not_delegating :
    cLastURLGapW.active = some ActiveTag.goTag ∧
    cLastURLGapW.gp.map GoPlayer.LastURL = some "http://a" ∧
    CompositeBackend.LastURL cLastURLGapW = "" := by
  refine ⟨by decide, by decide, by decide⟩

/-- C4 amended: `Stop()` is idempotent and total — it never errors, twice in
a row too, and always leaves `IsPlaying()` false; `Stop()` and `IsPlaying()`
delegate to the active backend when one is set and return the zero/idle
result (nil error, false) otherwise; `LastURL()` however always returns the
composite's own recorded last URL (the empty string when never played),
not the active backend's. -/
theorem composite_stop_idempotent_total (c : CompositeState)
    (g : GoPlayerState) (e : PlayerState) :
    ((CompositeBackend.Stop c).2 = none ∧
      CompositeBackend.IsPlaying (CompositeBackend.Stop c).1 = false ∧
      (CompositeBackend.Stop (CompositeBackend.Stop c).1).2 = none ∧
      CompositeBackend.IsPlaying (CompositeBackend.Stop (CompositeBackend.Stop c).1).1 = false) ∧
    (c.active = none →
      CompositeBackend.Stop c = (c, none) ∧ CompositeBackend.IsPlaying c = false) ∧
    (c.active = some ActiveTag.goTag → c.gp = some g →
      CompositeBackend.Stop c = ({ c with gp := some (GoPlayer.Stop g).1 }, (GoPlayer.Stop g).2) ∧
      CompositeBackend.IsPlaying c = GoPlayer.IsPlaying g) ∧
    (c.active = some ActiveTag.extTag → c.ext = some e →
      CompositeBackend.Stop c = ({ c with ext := some (Player.Stop e).1 }, (Player.Stop e).2) ∧
      CompositeBackend.IsPlaying c = Player.IsPlaying e) ∧
    CompositeBackend.LastURL c = c.lastURL ∧
    CompositeBackend.LastURL (CompositeBackend.New none) = "" := by
  refine ⟨⟨compositeStop_snd c, compositeStop_isPlaying c,
    compositeStop_snd _, compositeStop_isPlaying _⟩, ?_, ?_, ?_, rfl, rfl⟩
  · intro ha
    constructor
    · unfold CompositeBackend.Stop
      rw [ha]
    · unfold CompositeBackend.IsPlaying
      rw [ha]
  · intro ha hgp
    constructor
    · unfold CompositeBackend.Stop
      rw [ha, hgp]
    · unfold CompositeBackend.IsPlaying
      rw [ha, hgp]
      rfl
  · intro ha hext
    constructor
    · unfold CompositeBackend.Stop
      rw [ha, hext]
    · unfold CompositeBackend.IsPlaying
      rw [ha, hext]
      rfl

theorem composite_stop_idempotent_total_witness :
    CompositeBackend.Stop (CompositeBackend.New (some extW)) =
      (CompositeBackend.New (some extW), none) ∧
    (CompositeBackend.Stop cPlayingW).2 = none ∧
    CompositeBackend.IsPlaying (CompositeBackend.Stop cPlayingW).1 = false := by
  have h0 := composite_stop_idempotent_total (CompositeBackend.New (some extW))
    GoPlayerState.new extW
  have h1 := composite_stop_idempotent_total cPlayingW GoPlayerState.new extW
  exact ⟨(h0.2.1 rfl).1, h1.1.1, h1.1.2.1⟩

/-- The composite right after a successful in-process `Play`: its active
backend is the pure-Go one. -/
def c9stateW : CompositeState := cPlayingW

/-- C9 counterexample: `Stop` does not change `activeBackend`.  In a reachable
state whose active backend is the pure-Go one, after `Stop()` the `active`
field still points at the very same backend — so the claim that `Stop`
changes `activeBackend` (not only the backend's playing state) is false. -/
theorem composite_stop_preserves_active_counterexample :
    c9stateW.active = some ActiveTag.goTag ∧
    (CompositeBackend.Stop c9stateW).1.active = some ActiveTag.goTag ∧
    (CompositeBackend.Stop c9stateW).1.active = c9stateW.active ∧
    CompositeBackend.IsPlaying c9stateW = true ∧
    CompositeBackend.IsPlaying (CompositeBackend.Stop c9stateW).1 = false := by
  refine ⟨by decide, by decide, by decide, by decide, by decide⟩

/-- C9 amended: on every successful `Play` the `active` field is set to the
backend that succeeded (the pure-Go one when its branch succeeded, otherwise
the external one); `Stop` leaves `activeBackend` unchanged — it only stops
the active backend's playback. -/
theorem composite_active_changes (c : CompositeState) (url : String)
    (genv : GoPlayEnv) (eenv : ExtPlayEnv) :
    ((CompositeBackend.Play c url genv eenv).2 = none →
      (CompositeBackend.Play c url genv eenv).1.active =
        some (if goBranchOk c url genv then ActiveTag.goTag else ActiveTag.extTag)) ∧
    (CompositeBackend.Stop c).1.active = c.active := by
  refine ⟨?_, compositeStop_active c⟩
  intro hok
  rw [compositePlay_snd] at hok
  rw [compositePlay_active]
  unfold compositePlayErr at hok
  unfold compositePlayActive goBranchOk
  rcases hgp : c.gp with _ | g
  · rcases hext : c.ext with _ | e
    · simp [hgp, hext] at hok
    · rcases hee : extPlayErr e.backend url eenv with _ | emsg <;>
        simp_all [hgp, hext]
  · rcases hgo : goPlayErr g.initialized url genv with _ | gmsg
    · simp [hgp, hgo]
    · rcases hext : c.ext with _ | e
      · simp_all [hgp, hgo]
      · rcases hee : extPlayErr e.backend url eenv with _ | emsg <;>
          simp_all [hgp, hgo, hext]

theorem composite_active_changes_witness :
    (CompositeBackend.Play (CompositeBackend.New (some extW)) "http://s"
        genvDecodeFailW eenvOkW).1.active = some ActiveTag.extTag := by
  have h := (composite_active_changes (CompositeBackend.New (some extW)) "http://s"
    genvDecodeFailW eenvOkW).1 (by decide)
  simpa using h

/-- C5: reply delivery never blocks the event loop indefinitely —
`sendIPCReply` is a total function whose every call either delivers the reply
to the one-shot channel or drops it when the channel cannot accept it within
the fixed 200 ms window (a nil channel is ignored); each call adds at most
one reply, so every pending request receives at most one reply, and a client
that never reads its reply cannot stall dispatch. -/
theorem sendIPCReply_bounded (ch : Option IpcChan) (reply : IpcReply) (ready : Bool) :
    replyTimeoutMillis = 200 ∧
    (ch = none → sendIPCReply ch reply ready = (none, SendOutcome.nilChannel)) ∧
    (∀ c, ch = some c →
      sendIPCReply ch reply ready = (some { c with buf := c.buf ++ [reply] },
        SendOutcome.delivered) ∨
      sendIPCReply ch reply ready = (some c, SendOutcome.droppedAfterTimeout)) ∧
    (∀ c c', ch = some c → (sendIPCReply ch reply ready).1 = some c' →
      c'.buf.length ≤ c.buf.length + 1) := by
  refine ⟨rfl, ?_, ?_, ?_⟩
  · intro h
    rw [h]
    rfl
  · intro c h
    subst h
    cases ready
    · right
      rfl
    · left
      rfl
  · intro c c' h h'
    subst h
    cases ready
    · simp only [sendIPCReply, Bool.false_eq_true, if_false, Option.some.injEq] at h'
      subst h'
      simp
    · simp only [sendIPCReply, if_true, Option.some.injEq] at h'
      subst h'
      simp

theorem sendIPCReply_bounded_witness :
    sendIPCReply (some { cap := 1, buf := [] }) { ok := true, data := "OK", err := "" } true =
        (some { cap := 1, buf := [{ ok := true, data := "OK", err := "" }] },
          SendOutcome.delivered) ∨
    sendIPCReply (some { cap := 1, buf := [] }) { ok := true, data := "OK", err := "" } true =
        (some { cap := 1, buf := [] }, SendOutcome.droppedAfterTimeout) := by
  exact (sendIPCReply_bounded (some { cap := 1, buf := [] })
    { ok := true, data := "OK", err := "" } true).2.2.1 { cap := 1, buf := [] } rfl

/-- C6: command parsing trims surrounding whitespace and upper-cases, so two
lines with the same trimmed upper-cased form parse identically
(case-insensitivity); a token empty after trimming is a parse error answered
with one failure reply; and any other token outside the six commands is
answered with exactly one failure reply saying `unknown command`. -/
theorem ipc_parse_and_unknown (m : Model) (raw : String) :
    (strTrim raw ≠ "" → parseIPCCommand raw = Except.ok (strToUpper (strTrim raw))) ∧
    (∀ raw2 : String, strToUpper (strTrim raw) = strToUpper (strTrim raw2) →
      parseIPCCommand raw = parseIPCCommand raw2) ∧
    (strTrim raw = "" → ∃ e, parseIPCCommand raw = Except.error e ∧
      (m.handleIPC raw).replies = [{ ok := false, data := "", err := e }]) ∧
    (strTrim raw ≠ "" →
      strToUpper (strTrim raw) ∉
        (["PLAY_PAUSE", "NEXT", "PREV", "QUIT", "STATUS", "PING"] : List String) →
      (m.handleIPC raw).replies = [{ ok := false, data := "", err := "unknown command" }]) := by
  have hlen : strToUpper (strTrim raw) = "" ↔ strTrim raw = "" := by
    constructor
    · intro h
      have h2 : (strTrim raw).data.map Char.toUpper = ([] : List Char) :=
        congrArg String.data h
      rw [List.map_eq_nil_iff] at h2
      rcases hx : strTrim raw with ⟨data⟩
      rw [hx] at h2
      simp only at h2
      rw [h2]
    · intro h
      rw [h]
      rfl
  refine ⟨?_, ?_, ?_, ?_⟩
  · intro h
    unfold parseIPCCommand
    rw [if_neg (by simpa [hlen] using h)]
  · intro raw2 h
    unfold parseIPCCommand
    rw [h]
  · intro h
    refine ⟨"empty command", ?_, ?_⟩
    · unfold parseIPCCommand
      rw [if_pos (hlen.mpr h)]
    · unfold Model.handleIPC parseIPCCommand
      rw [if_pos (hlen.mpr h)]
  · intro h hmem
    simp only [List.mem_cons, List.not_mem_nil, or_false, not_or] at hmem
    obtain ⟨h1, h2, h3, h4, h5, h6⟩ := hmem
    unfold Model.handleIPC parseIPCCommand
    rw [if_neg (by simpa [hlen] using h)]
    simp only []
    rw [if_neg h1, if_neg h2, if_neg h3, if_neg h4, if_neg h5, if_neg h6]

/-- An idle session model with no stations loaded and country filter US. -/
def mEmptyW : Model :=
  { stations := [], filtered := [], searchValue := "", selected := 0
    playing := false, country := "US" }

theorem ipc_parse_and_unknown_witness :
    parseIPCCommand "  hello " = Except.ok "HELLO" ∧
    (Model.handleIPC mEmptyW "  hello ").replies =
      [{ ok := false, data := "", err := "unknown command" }] := by
  have h := ipc_parse_and_unknown mEmptyW "  hello "
  refine ⟨?_, h.2.2.2 (by decide) (by decide)⟩
  have h1 := h.1 (by decide)
  rw [h1]
  rfl

/-- A station with an empty name. -/
def stationNoNameW : Station := { uuid := "u1", name := "", country := "US", tags := "" }

/-- A session with the empty-named station selected. -/
def mNoNameW : Model :=
  { stations := [stationNoNameW], filtered := [], searchValue := "", selected := 0
    playing := false, country := "US" }

/-- C7 counterexample: the STATUS payload's station field is the placeholder
`-` even when a station *is* selected, namely when the selected station's
name is empty — so the claim that the field equals the selected station's
name whenever one is selected is false. -/
theorem ipcStatus_placeholder_counterexample :
    mNoNameW.currentStation = some stationNoNameW ∧
    Model.ipcStatus mNoNameW =
      "\x7b\"playing\":false,\"station\":\"-\",\"country\":\"US\"\x7d" ∧
    Model.ipcStatus mNoNameW ≠
      "\x7b\"playing\":false,\"station\":" ++ goQuote stationNoNameW.name
        ++ ",\"country\":\"US\"\x7d" := by
  refine ⟨by decide, by decide, by decide⟩

/-- C7 amended: `STATUS` is answered synchronously with one success reply
whose payload is exactly the JSON object with the `playing` boolean equal to
the session's play flag at dispatch, the station field equal to the selected
station's name — or the placeholder `-` when none is selected or the selected
station's name is empty — and the country field equal to the active country
filter. -/
theorem ipc_status_payload (m : Model) :
    (m.handleIPC "STATUS").replies = [{ ok := true, data := m.ipcStatus, err := "" }] ∧
    (m.handleIPC "STATUS").model = m ∧
    m.ipcStatus =
      "\x7b\"playing\":" ++ (if m.playing then "true" else "false")
        ++ ",\"station\":" ++ goQuote (match m.currentStation with
            | some s => if s.name = "" then "-" else s.name
            | none => "-")
        ++ ",\"country\":" ++ goQuote m.country ++ "\x7d" := by
  refine ⟨rfl, rfl, ?_⟩
  unfold Model.ipcStatus
  rcases h : m.currentStation with _ | s
  · simp [h]
  · simp [h]

/-- C8: on construction of the external backend, executable selection follows
the strict priority bundled → downloaded → `mpv` on PATH → `ffplay` on PATH;
the first hit wins and later candidates are never consulted (the result does
not depend on them); when nothing is found, construction returns an error. -/
theorem newExternal_priority (env : ExternalLookupEnv) :
    (∀ path backend, findBundledPlayer env = (path, backend) → path ≠ "" →
      ∀ d mp fp,
        newExternal { env with downloaded := d, mpvOnPath := mp, ffplayOnPath := fp } =
          Except.ok { cmd := none, backend := backend, path := path, lastURL := "" }) ∧
    ((findBundledPlayer env).1 = "" →
      ∀ path backend, findDownloadedPlayer env = (path, backend) → path ≠ "" →
        ∀ mp fp,
          newExternal { env with mpvOnPath := mp, ffplayOnPath := fp } =
            Except.ok { cmd := none, backend := backend, path := path, lastURL := "" }) ∧
    ((findBundledPlayer env).1 = "" → (findDownloadedPlayer env).1 = "" →
      ∀ path, env.mpvOnPath = some path →
        ∀ fp,
          newExternal { env with ffplayOnPath := fp } =
            Except.ok { cmd := none, backend := "mpv", path := path, lastURL := "" }) ∧
    ((findBundledPlayer env).1 = "" → (findDownloadedPlayer env).1 = "" →
      env.mpvOnPath = none → ∀ path, env.ffplayOnPath = some path →
        newExternal env =
          Except.ok { cmd := none, backend := "ffplay", path := path, lastURL := "" }) ∧
    ((findBundledPlayer env).1 = "" → (findDownloadedPlayer env).1 = "" →
      env.mpvOnPath = none → env.ffplayOnPath = none →
        newExternal env = Except.error "mpv or ffplay not found (bundle one or add to PATH)") := by
  obtain ⟨dir, ex, dl, mp0, fp0⟩ := env
  refine ⟨?_, ?_, ?_, ?_, ?_⟩
  · intro path backend hfb hne d mp fp
    have hb : findBundledPlayer ⟨dir, ex, d, mp, fp⟩ = (path, backend) := hfb
    simp [newExternal, hb, hne]
  · intro hfb path backend hfd hne mp fp
    have hb : (findBundledPlayer ⟨dir, ex, dl, mp, fp⟩).1 = "" := hfb
    have hd : findDownloadedPlayer ⟨dir, ex, dl, mp, fp⟩ = (path, backend) := hfd
    simp [newExternal, hb, hd, hne]
  · intro hfb hfd path hmp fp
    simp only at hmp
    subst hmp
    have hb : (findBundledPlayer ⟨dir, ex, dl, some path, fp⟩).1 = "" := hfb
    have hd : (findDownloadedPlayer ⟨dir, ex, dl, some path, fp⟩).1 = "" := hfd
    simp [newExternal, hb, hd]
  · intro hfb hfd hmp path hfp
    simp only at hmp hfp
    subst hmp
    subst hfp
    simp [newExternal, hfb, hfd]
  · intro hfb hfd hmp hfp
    simp only at hmp hfp
    subst hmp
    subst hfp
    simp [newExternal, hfb, hfd]

/-- A lookup environment in which an `mpv` executable is bundled next to the
binary and every later candidate also exists. -/
def lookupEnvBundledW : ExternalLookupEnv :=
  { exeDir := some "/app", isExec := fun p => p = "/app/mpv"
    downloaded := some ("/dl/mpv", "mpv"), mpvOnPath := some "/usr/bin/mpv"
    ffplayOnPath := some "/usr/bin/ffplay" }

theorem newExternal_priority_witness :
    newExternal lookupEnvBundledW =
      Except.ok { cmd := none, backend := "mpv", path := "/app/mpv", lastURL := "" } := by
  have h := (newExternal_priority lookupEnvBundledW).1 "/app/mpv" "mpv" (by decide) (by decide)
    lookupEnvBundledW.downloaded lookupEnvBundledW.mpvOnPath lookupEnvBundledW.ffplayOnPath
  exact h

end ValveFM
